import Mathlib

/-!
Verification of the image-editor core: edit parameters, center-crop geometry,
the linear undo/redo history, autosave signature gating, and the final-image
composition step.  Every definition is a direct translation of the
corresponding source function; JS numbers that only ever hold integers are
modelled as `Int`/`Nat`, and canvas geometry as exact rationals.
-/

namespace ImageEditor

/-- The crop-ratio enumeration from the source:
`'original' | '1:1' | '16:9' | '4:3' | '3:4' | '9:16'`. -/
inductive CropRatio where
  | original
  | r1x1
  | r16x9
  | r4x3
  | r3x4
  | r9x16
  deriving DecidableEq, Repr

/-- `EditorState`: one fully specified edit snapshot
(`brightness`, `contrast`, `rotation`, `cropRatio`). -/
structure EditorState where
  brightness : Int
  contrast : Int
  rotation : Int
  cropRatio : CropRatio
  deriving DecidableEq, Repr

/-- `INITIAL_STATE = { brightness: 100, contrast: 100, rotation: 0, cropRatio: 'original' }`. -/
def INITIAL_STATE : EditorState :=
  { brightness := 100, contrast := 100, rotation := 0, cropRatio := CropRatio.original }

/-- The live React state of the `ImageEditor` component: the four live
parameter values plus the history array and the current index into it. -/
structure EditorSession where
  brightness : Int
  contrast : Int
  rotation : Int
  cropRatio : CropRatio
  history : List EditorState
  currentIndex : Nat
  deriving DecidableEq, Repr

/-- The session as it is right after mount: live state `INITIAL_STATE`,
`history = [INITIAL_STATE]`, `currentIndex = 0`. -/
def initialSession : EditorSession :=
  { brightness := INITIAL_STATE.brightness, contrast := INITIAL_STATE.contrast,
    rotation := INITIAL_STATE.rotation, cropRatio := INITIAL_STATE.cropRatio,
    history := [INITIAL_STATE], currentIndex := 0 }

/-- `history[currentIndex]`, the committed snapshot the index points at.
Under the session invariant the index is in bounds, so the `getD` default is
never consulted. -/
def current (s : EditorSession) : EditorState :=
  s.history.getD s.currentIndex INITIAL_STATE

/-- The live (previewed) parameter values bundled as a snapshot. -/
def liveState (s : EditorSession) : EditorState :=
  ⟨s.brightness, s.contrast, s.rotation, s.cropRatio⟩

/-- `applyState`: overwrite the four live parameter values from a snapshot
(`setBrightness/setContrast/setRotation/setCropRatio`). -/
def applyState (st : EditorState) (s : EditorSession) : EditorSession :=
  { s with brightness := st.brightness, contrast := st.contrast,
           rotation := st.rotation, cropRatio := st.cropRatio }

/-- `addToHistory(newState)`: if `newState` is field-for-field equal to
`history[currentIndex]` do nothing; otherwise slice the history to
`[0..currentIndex]`, push `newState`, and point the index at the new end. -/
def addToHistory (s : EditorSession) (newState : EditorState) : EditorSession :=
  let currentState := s.history.getD s.currentIndex INITIAL_STATE
  if currentState = newState then s
  else
    let newHistory := s.history.take (s.currentIndex + 1) ++ [newState]
    { s with history := newHistory, currentIndex := newHistory.length - 1 }

/-- The error taxonomy the spec names for the operations modelled here. -/
inductive EditError where
  | noOpError
  | decodeError
  deriving DecidableEq, Repr

/-- `handleUndo`: guarded by `currentIndex > 0`; on success decrement the
index and apply the snapshot there to the live state.  The guarded no-op is
surfaced as `NoOpError` alongside the (unchanged) session. -/
def handleUndo (s : EditorSession) : EditorSession × Option EditError :=
  if 0 < s.currentIndex then
    let newIndex := s.currentIndex - 1
    (applyState (s.history.getD newIndex INITIAL_STATE) { s with currentIndex := newIndex },
     none)
  else (s, some EditError.noOpError)

/-- `handleRedo`: guarded by `currentIndex < history.length - 1`; on success
increment the index and apply the snapshot there to the live state. -/
def handleRedo (s : EditorSession) : EditorSession × Option EditError :=
  if s.currentIndex < s.history.length - 1 then
    let newIndex := s.currentIndex + 1
    (applyState (s.history.getD newIndex INITIAL_STATE) { s with currentIndex := newIndex },
     none)
  else (s, some EditError.noOpError)

/-- `handleRotate`: `newRotation = (rotation + 90) % 360`, set it live, then
`addToHistory` a snapshot built from the live brightness/contrast/cropRatio
plus the new rotation. -/
def handleRotate (s : EditorSession) : EditorSession :=
  let newRotation := (s.rotation + 90) % 360
  addToHistory { s with rotation := newRotation }
    ⟨s.brightness, s.contrast, newRotation, s.cropRatio⟩

/-- `handleCropChange(ratio)`: set the live crop ratio, then `addToHistory` a
snapshot built from the live brightness/contrast/rotation plus the new ratio. -/
def handleCropChange (s : EditorSession) (ratio : CropRatio) : EditorSession :=
  addToHistory { s with cropRatio := ratio }
    ⟨s.brightness, s.contrast, s.rotation, ratio⟩

/-- `commitSliderChange`: push the current live values to history
(fired on pointer release of the brightness/contrast sliders). -/
def commitSliderChange (s : EditorSession) : EditorSession :=
  addToHistory s ⟨s.brightness, s.contrast, s.rotation, s.cropRatio⟩

/-- `handleReset`: apply `INITIAL_STATE` to the live values and replace the
history stack with the single default entry at index 0. -/
def handleReset (s : EditorSession) : EditorSession :=
  { applyState INITIAL_STATE s with history := [INITIAL_STATE], currentIndex := 0 }

/-- The history-consistency invariant: `0 ≤ currentIndex < history.length`
and the first history entry is the default `INITIAL_STATE`. -/
abbrev Inv (s : EditorSession) : Prop :=
  0 ≤ s.currentIndex ∧ s.currentIndex < s.history.length ∧
    s.history.head? = some INITIAL_STATE

/-- A computed crop region: `{ width, height, x, y }` as returned by
`getCropDimensions`.  Canvas geometry is modelled over exact rationals. -/
structure CropRect where
  width : ℚ
  height : ℚ
  x : ℚ
  y : ℚ
  deriving DecidableEq, Repr

/-- The numerator/denominator pair `ratio.split(':').map(Number)` yields for
each non-`original` ratio string.  The `original` case never reaches the
split in the source (guarded by the early return), so its value here is
irrelevant. -/
def ratioNums : CropRatio → ℚ × ℚ
  | CropRatio.original => (0, 0)
  | CropRatio.r1x1 => (1, 1)
  | CropRatio.r16x9 => (16, 9)
  | CropRatio.r4x3 => (4, 3)
  | CropRatio.r3x4 => (3, 4)
  | CropRatio.r9x16 => (9, 16)

/-- `getCropDimensions(imgWidth, imgHeight, ratio)` from the source: full
buffer for `'original'`; otherwise shrink one dimension to meet the target
ratio and center the region. -/
def getCropDimensions (imgWidth imgHeight : ℚ) (ratio : CropRatio) : CropRect :=
  if ratio = CropRatio.original then
    { width := imgWidth, height := imgHeight, x := 0, y := 0 }
  else
    let targetRatio := (ratioNums ratio).1 / (ratioNums ratio).2
    let currentRatio := imgWidth / imgHeight
    let width := if currentRatio > targetRatio then imgHeight * targetRatio else imgWidth
    let height := if currentRatio > targetRatio then imgHeight else imgWidth / targetRatio
    { width := width, height := height,
      x := (imgWidth - width) / 2, y := (imgHeight - height) / 2 }

/-- The decoded pixel dimensions of the source image (`img.width`,
`img.height` once `onload` has fired). -/
structure SourcePixels where
  width : ℚ
  height : ℚ
  deriving DecidableEq, Repr

/-- What the caller of the editor can observe from one `generateFinalImage`
call: nothing at all, a saved output buffer of the given dimensions handed to
`onSave`, or an error report (no code path of the source produces one). -/
inductive ApplyOutcome where
  | silent
  | saved (width height : ℚ)
  | errorReported (e : EditError)
  deriving DecidableEq, Repr

/-- `generateFinalImage` from the source.  Decoding is modelled by the
`Option SourcePixels` argument: `none` means the source image fails to
decode, in which case `img.onload` never fires and — since no `onerror`
handler is installed — nothing observable happens at all.  On success the
rotation stage swaps the canvas dimensions for sideways rotations, the crop
stage crops the rotated buffer, and the output buffer sized to the crop
region is handed to `onSave`.  Pixel content (the brightness/contrast filter
and the pixel copy) is abstracted to the output dimensions; no claim refers
to it.  The function never touches the React state, so the session component
is returned unchanged on every path. -/
def generateFinalImage (decoded : Option SourcePixels) (s : EditorSession) :
    EditorSession × ApplyOutcome :=
  match decoded with
  | none => (s, ApplyOutcome.silent)
  | some img =>
    let rotatedWidth := if s.rotation % 180 ≠ 0 then img.height else img.width
    let rotatedHeight := if s.rotation % 180 ≠ 0 then img.width else img.height
    let crop := getCropDimensions rotatedWidth rotatedHeight s.cropRatio
    (s, ApplyOutcome.saved crop.width crop.height)

/-- `getImageSignature(imgData)`: the empty string for an empty blob,
otherwise `length ++ "-" ++ first 30 chars ++ "-" ++ last 30 chars`
(JS `slice(0, 30)` / `slice(-30)`). -/
def getImageSignature (imgData : String) : String :=
  if imgData = "" then ""
  else toString imgData.length ++ "-" ++ imgData.take 30 ++ "-" ++ imgData.takeRight 30

/-- The autosave record written to `localStorage` (the parsed form).  A
stored value that is absent or fails to parse is modelled as
`Option.none` at the use sites. -/
structure SavedState where
  imageSignature : String
  brightness : Int
  contrast : Int
  rotation : Int
  cropRatio : CropRatio
  history : List EditorState
  currentIndex : Nat
  timestamp : Int
  deriving DecidableEq, Repr

/-- The autosave effect's payload: the current image signature, the live
parameter values, the history array and index, and the timestamp. -/
def autosaveSnapshot (image : String) (s : EditorSession) (now : Int) : SavedState :=
  { imageSignature := getImageSignature image,
    brightness := s.brightness, contrast := s.contrast,
    rotation := s.rotation, cropRatio := s.cropRatio,
    history := s.history, currentIndex := s.currentIndex,
    timestamp := now }

/-- The mount effect that sets `hasAutosave`: true exactly when a stored
snapshot exists (and parsed) whose `imageSignature` equals the signature of
the currently loaded image. -/
def checkAutosave (stored : Option SavedState) (image : String) : Bool :=
  match stored with
  | some parsed => parsed.imageSignature == getImageSignature image
  | none => false

/-- `handleRestoreAutosave`: re-read the stored snapshot; if its signature
matches the current image, overwrite the live values, the history and the
index from it; otherwise leave the session untouched.  The function only
reads storage (no `removeItem`/`setItem`), so the stored value is returned
unchanged. -/
def handleRestoreAutosave (stored : Option SavedState) (image : String)
    (s : EditorSession) : Option SavedState × EditorSession :=
  match stored with
  | some parsed =>
    if parsed.imageSignature = getImageSignature image then
      (stored,
       { brightness := parsed.brightness, contrast := parsed.contrast,
         rotation := parsed.rotation, cropRatio := parsed.cropRatio,
         history := parsed.history, currentIndex := parsed.currentIndex })
    else (stored, s)
  | none => (stored, s)

/-! ## Crop geometry -/

/-- Closed form of `getCropDimensions` for a non-`original` ratio. -/
lemma getCropDimensions_nonoriginal (W H : ℚ) (r : CropRatio)
    (hr : r ≠ CropRatio.original) :
    getCropDimensions W H r =
      { width := if W / H > (ratioNums r).1 / (ratioNums r).2
                 then H * ((ratioNums r).1 / (ratioNums r).2) else W,
        height := if W / H > (ratioNums r).1 / (ratioNums r).2
                  then H else W / ((ratioNums r).1 / (ratioNums r).2),
        x := (W - if W / H > (ratioNums r).1 / (ratioNums r).2
                  then H * ((ratioNums r).1 / (ratioNums r).2) else W) / 2,
        y := (H - if W / H > (ratioNums r).1 / (ratioNums r).2
                  then H else W / ((ratioNums r).1 / (ratioNums r).2)) / 2 } := by
  cases r
  · exact absurd rfl hr
  all_goals rfl

/-- Every non-`original` ratio has a strictly positive target ratio. -/
lemma ratioNums_pos (r : CropRatio) (hr : r ≠ CropRatio.original) :
    0 < (ratioNums r).1 / (ratioNums r).2 := by
  cases r
  · exact absurd rfl hr
  all_goals norm_num [ratioNums]

/-- The center-crop computation never grows either dimension. -/
lemma crop_shrinks (W H t : ℚ) (_hW : 0 < W) (hH : 0 < H) (ht : 0 < t) :
    (if W / H > t then H * t else W) ≤ W ∧
      (if W / H > t then H else W / t) ≤ H := by
  by_cases hc : W / H > t
  · have h1 : t * H < W := (lt_div_iff₀ hH).mp hc
    rw [if_pos hc, if_pos hc]
    constructor
    · nlinarith
    · exact le_refl H
  · have h2 : W ≤ t * H := (div_le_iff₀ hH).mp (le_of_not_lt hc)
    have h3 : W / t ≤ H := by
      rw [div_le_iff₀ ht]
      nlinarith
    rw [if_neg hc, if_neg hc]
    exact ⟨le_refl W, h3⟩

/-- Claim C1: for every rotated buffer of dimensions `(W, H)` and every
non-`original` crop ratio `w:h`, the computed crop region has width
`H * (w/h)` and height `H` when `W/H > w/h`, and width `W` and height
`W / (w/h)` otherwise, with centered offsets `x = (W - width)/2` and
`y = (H - height)/2`; in particular a 1000×500 buffer with ratio 1:1 yields
width 500, height 500, x = 250, y = 0, and a 500×1000 buffer with ratio 1:1
yields width 500, height 500, x = 0, y = 250. -/
theorem crop_geometry (W H : ℚ) (r : CropRatio) (hW : 0 < W) (hH : 0 < H)
    (hr : r ≠ CropRatio.original) :
    ((W / H > (ratioNums r).1 / (ratioNums r).2 →
        (getCropDimensions W H r).width = H * ((ratioNums r).1 / (ratioNums r).2) ∧
        (getCropDimensions W H r).height = H) ∧
     (¬ W / H > (ratioNums r).1 / (ratioNums r).2 →
        (getCropDimensions W H r).width = W ∧
        (getCropDimensions W H r).height = W / ((ratioNums r).1 / (ratioNums r).2)) ∧
     (getCropDimensions W H r).x = (W - (getCropDimensions W H r).width) / 2 ∧
     (getCropDimensions W H r).y = (H - (getCropDimensions W H r).height) / 2) ∧
    getCropDimensions 1000 500 CropRatio.r1x1 =
      { width := 500, height := 500, x := 250, y := 0 } ∧
    getCropDimensions 500 1000 CropRatio.r1x1 =
      { width := 500, height := 500, x := 0, y := 250 } := by
  rw [getCropDimensions_nonoriginal W H r hr]
  refine ⟨⟨fun hc => ?_, fun hc => ?_, rfl, rfl⟩,
    by rw [getCropDimensions_nonoriginal 1000 500 CropRatio.r1x1 (by decide)]
       norm_num [ratioNums],
    by rw [getCropDimensions_nonoriginal 500 1000 CropRatio.r1x1 (by decide)]
       norm_num [ratioNums]⟩
  · rw [if_pos hc, if_pos hc]
    exact ⟨rfl, rfl⟩
  · rw [if_neg hc, if_neg hc]
    exact ⟨rfl, rfl⟩

/-- Witness for C1 at the spec's concrete inputs. -/
theorem crop_geometry_witness :
    getCropDimensions 1000 500 CropRatio.r1x1 =
      { width := 500, height := 500, x := 250, y := 0 } ∧
    getCropDimensions 500 1000 CropRatio.r1x1 =
      { width := 500, height := 500, x := 0, y := 250 } :=
  ⟨(crop_geometry 1000 500 CropRatio.r1x1 (by norm_num) (by norm_num) (by decide)).2.1,
   (crop_geometry 1000 500 CropRatio.r1x1 (by norm_num) (by norm_num) (by decide)).2.2⟩

/-- Claim C8: for every rotated buffer with strictly positive width and
height and every crop ratio, the computed crop region lies entirely within
the buffer (`x ≥ 0`, `y ≥ 0`, `x + width ≤ W`, `y + height ≤ H`) and is
centered (`x = (W - width)/2`, `y = (H - height)/2`). -/
theorem crop_region_safety (W H : ℚ) (r : CropRatio) (hW : 0 < W) (hH : 0 < H) :
    0 ≤ (getCropDimensions W H r).x ∧
    0 ≤ (getCropDimensions W H r).y ∧
    (getCropDimensions W H r).x + (getCropDimensions W H r).width ≤ W ∧
    (getCropDimensions W H r).y + (getCropDimensions W H r).height ≤ H ∧
    (getCropDimensions W H r).x = (W - (getCropDimensions W H r).width) / 2 ∧
    (getCropDimensions W H r).y = (H - (getCropDimensions W H r).height) / 2 := by
  by_cases hr : r = CropRatio.original
  · subst hr
    simp only [getCropDimensions, if_pos rfl]
    norm_num
  · rw [getCropDimensions_nonoriginal W H r hr]
    obtain ⟨hw, hh⟩ :=
      crop_shrinks W H ((ratioNums r).1 / (ratioNums r).2) hW hH (ratioNums_pos r hr)
    refine ⟨by linarith, by linarith, by linarith, by linarith, rfl, rfl⟩

/-- Witness for C8 on a concrete 1000×500 buffer with a 16:9 crop. -/
theorem crop_region_safety_witness :
    0 ≤ (getCropDimensions 1000 500 CropRatio.r16x9).x ∧
    (getCropDimensions 1000 500 CropRatio.r16x9).x +
        (getCropDimensions 1000 500 CropRatio.r16x9).width ≤ 1000 :=
  ⟨(crop_region_safety 1000 500 CropRatio.r16x9 (by norm_num) (by norm_num)).1,
   (crop_region_safety 1000 500 CropRatio.r16x9 (by norm_num) (by norm_num)).2.2.1⟩

/-! ## Undo/redo history -/

/-- A concrete session with a two-entry history and the index parked on the
older entry (as after one rotate and one undo). -/
def midSession : EditorSession :=
  { brightness := 100, contrast := 100, rotation := 0, cropRatio := CropRatio.original,
    history := [INITIAL_STATE, ⟨100, 100, 90, CropRatio.original⟩], currentIndex := 0 }

/-- A concrete session with a two-entry history and the index at the newest
entry (as after one rotate). -/
def endSession : EditorSession :=
  { brightness := 100, contrast := 100, rotation := 90, cropRatio := CropRatio.original,
    history := [INITIAL_STATE, ⟨100, 100, 90, CropRatio.original⟩], currentIndex := 1 }

/-- A concrete session with an uncommitted brightness preview: live
brightness 150 while the committed snapshot still says 100. -/
def previewSession : EditorSession :=
  { brightness := 150, contrast := 100, rotation := 0, cropRatio := CropRatio.original,
    history := [INITIAL_STATE], currentIndex := 0 }

/-- A commit whose snapshot differs from `history[currentIndex]`: the history
is sliced to `[0..currentIndex]` with the snapshot appended, the index moves
one step forward onto the appended snapshot, and the live values are
untouched. -/
lemma addToHistory_of_ne (s : EditorSession) (ns : EditorState)
    (hidx : s.currentIndex < s.history.length)
    (hne : ¬ s.history.getD s.currentIndex INITIAL_STATE = ns) :
    (addToHistory s ns).history = s.history.take (s.currentIndex + 1) ++ [ns] ∧
    (addToHistory s ns).currentIndex = s.currentIndex + 1 ∧
    current (addToHistory s ns) = ns := by
  have hlen : (s.history.take (s.currentIndex + 1)).length = s.currentIndex + 1 := by
    rw [List.length_take]
    omega
  have hh : (addToHistory s ns).history = s.history.take (s.currentIndex + 1) ++ [ns] := by
    simp only [addToHistory, if_neg hne]
  have hi : (addToHistory s ns).currentIndex = s.currentIndex + 1 := by
    simp only [addToHistory, if_neg hne]
    simp [hlen]
  refine ⟨hh, hi, ?_⟩
  have hc : current (addToHistory s ns) =
      (s.history.take (s.currentIndex + 1) ++ [ns]).getD (s.currentIndex + 1)
        INITIAL_STATE := by
    simp only [current, hh, hi]
  rw [hc, List.getD_append_right _ _ _ _ (le_of_eq hlen), hlen]
  simp

/-- A commit whose snapshot equals `history[currentIndex]` leaves the whole
session untouched. -/
lemma addToHistory_of_eq (s : EditorSession) (ns : EditorState)
    (heq : s.history.getD s.currentIndex INITIAL_STATE = ns) :
    addToHistory s ns = s := by
  simp only [addToHistory, if_pos heq]

/-- Undo away from the left boundary: the index decrements, the history is
untouched, and the snapshot at the new index is applied to the live state. -/
lemma handleUndo_of_pos (s : EditorSession) (hpos : 0 < s.currentIndex) :
    handleUndo s =
      (applyState (s.history.getD (s.currentIndex - 1) INITIAL_STATE)
        { s with currentIndex := s.currentIndex - 1 }, none) := by
  simp only [handleUndo, if_pos hpos]

/-- Redo away from the right boundary: the index increments, the history is
untouched, and the snapshot at the new index is applied to the live state. -/
lemma handleRedo_of_lt (s : EditorSession) (hlt : s.currentIndex < s.history.length - 1) :
    handleRedo s =
      (applyState (s.history.getD (s.currentIndex + 1) INITIAL_STATE)
        { s with currentIndex := s.currentIndex + 1 }, none) := by
  simp only [handleRedo, if_pos hlt]

/-- Claim C3: committing a candidate snapshot structurally equal (all four
fields) to the snapshot at the current index leaves both the history length
and the index unchanged. -/
theorem commit_idempotent_at_current (s : EditorSession)
    (hidx : s.currentIndex < s.history.length) (ns : EditorState)
    (heq : ns = current s) :
    (addToHistory s ns).history.length = s.history.length ∧
    (addToHistory s ns).currentIndex = s.currentIndex := by
  rw [addToHistory_of_eq s ns heq.symm]
  exact ⟨rfl, rfl⟩

/-- Witness for C3: re-committing the current snapshot of a two-entry
history changes neither the length nor the index. -/
theorem commit_idempotent_at_current_witness :
    (addToHistory midSession INITIAL_STATE).history.length = 2 ∧
    (addToHistory midSession INITIAL_STATE).currentIndex = 0 :=
  commit_idempotent_at_current midSession (by decide) INITIAL_STATE (by decide)

/-- Claim C2: committing a snapshot not structurally equal to the current
one from the middle of the history truncates the sequence to positions
`0..index` inclusive, appends the new snapshot, and sets the index to the
new last position; immediately afterwards `redo` fails with `NoOpError`. -/
theorem commit_truncates_branch (s : EditorSession) (hinv : Inv s)
    (hmid : s.currentIndex < s.history.length - 1) (ns : EditorState)
    (hne : ns ≠ current s) :
    (addToHistory s ns).history = s.history.take (s.currentIndex + 1) ++ [ns] ∧
    (addToHistory s ns).currentIndex = (addToHistory s ns).history.length - 1 ∧
    (handleRedo (addToHistory s ns)).2 = some EditError.noOpError := by
  obtain ⟨-, hidx, -⟩ := hinv
  obtain ⟨hh, hi, -⟩ := addToHistory_of_ne s ns hidx (fun h => hne h.symm)
  have hlen : (addToHistory s ns).history.length = s.currentIndex + 2 := by
    rw [hh, List.length_append, List.length_take]
    simp only [List.length_singleton]
    omega
  refine ⟨hh, by omega, ?_⟩
  simp only [handleRedo]
  rw [if_neg (by omega)]

/-- Witness for C2 from the middle of a concrete two-entry history. -/
theorem commit_truncates_branch_witness :
    (addToHistory midSession ⟨120, 100, 0, CropRatio.original⟩).history =
      [INITIAL_STATE, ⟨120, 100, 0, CropRatio.original⟩] ∧
    (handleRedo (addToHistory midSession ⟨120, 100, 0, CropRatio.original⟩)).2 =
      some EditError.noOpError := by
  have h := commit_truncates_branch midSession (by decide) (by decide)
    ⟨120, 100, 0, CropRatio.original⟩ (by decide)
  exact ⟨h.1.trans (by decide), h.2.2⟩

/-- Claim C4: from any history state with `index > 0`, `undo` followed
immediately by `redo` restores `current()` to exactly its prior value and
leaves the history sequence and the index as they were. -/
theorem undo_redo_roundtrip (s : EditorSession) (hinv : Inv s)
    (hpos : 0 < s.currentIndex) :
    current (handleRedo (handleUndo s).1).1 = current s ∧
    (handleRedo (handleUndo s).1).1.history = s.history ∧
    (handleRedo (handleUndo s).1).1.currentIndex = s.currentIndex := by
  obtain ⟨-, hidx, -⟩ := hinv
  rw [handleUndo_of_pos s hpos]
  have hlt : s.currentIndex - 1 < s.history.length - 1 := by omega
  rw [handleRedo_of_lt _ hlt]
  have hci : s.currentIndex - 1 + 1 = s.currentIndex := by omega
  refine ⟨?_, rfl, ?_⟩
  · show s.history.getD (s.currentIndex - 1 + 1) INITIAL_STATE = current s
    rw [hci]
    rfl
  · show s.currentIndex - 1 + 1 = s.currentIndex
    omega

/-- Witness for C4 at the newest entry of a concrete two-entry history. -/
theorem undo_redo_roundtrip_witness :
    current (handleRedo (handleUndo endSession).1).1 = current endSession ∧
    (handleRedo (handleUndo endSession).1).1.currentIndex = 1 :=
  ⟨(undo_redo_roundtrip endSession (by decide) (by decide)).1,
   (undo_redo_roundtrip endSession (by decide) (by decide)).2.2⟩

/-- Undo at the left boundary: the session is returned unchanged together
with the `NoOpError` report. -/
lemma handleUndo_at_bound (s : EditorSession) (h : ¬ 0 < s.currentIndex) :
    handleUndo s = (s, some EditError.noOpError) := by
  simp only [handleUndo, if_neg h]

/-- Redo at the right boundary: the session is returned unchanged together
with the `NoOpError` report. -/
lemma handleRedo_at_bound (s : EditorSession)
    (h : ¬ s.currentIndex < s.history.length - 1) :
    handleRedo s = (s, some EditError.noOpError) := by
  simp only [handleRedo, if_neg h]

/-- Every commit preserves the history-consistency invariant. -/
lemma inv_addToHistory (s : EditorSession) (hinv : Inv s) (ns : EditorState) :
    Inv (addToHistory s ns) := by
  obtain ⟨-, hidx, hhead⟩ := hinv
  by_cases h : s.history.getD s.currentIndex INITIAL_STATE = ns
  · rw [addToHistory_of_eq s ns h]
    exact ⟨Nat.zero_le _, hidx, hhead⟩
  · obtain ⟨hh, hi, -⟩ := addToHistory_of_ne s ns hidx h
    refine ⟨Nat.zero_le _, ?_, ?_⟩
    · rw [hh, hi, List.length_append, List.length_take]
      simp only [List.length_singleton]
      omega
    · rw [hh, List.head?_append, List.head?_take,
        if_neg (by omega : ¬ s.currentIndex + 1 = 0), hhead]
      rfl

/-- Undo preserves the history-consistency invariant. -/
lemma inv_handleUndo (s : EditorSession) (hinv : Inv s) : Inv (handleUndo s).1 := by
  obtain ⟨-, hidx, hhead⟩ := hinv
  by_cases h : 0 < s.currentIndex
  · rw [handleUndo_of_pos s h]
    refine ⟨Nat.zero_le _, ?_, hhead⟩
    show s.currentIndex - 1 < s.history.length
    omega
  · rw [handleUndo_at_bound s h]
    exact ⟨Nat.zero_le _, hidx, hhead⟩

/-- Redo preserves the history-consistency invariant. -/
lemma inv_handleRedo (s : EditorSession) (hinv : Inv s) : Inv (handleRedo s).1 := by
  obtain ⟨-, hidx, hhead⟩ := hinv
  by_cases h : s.currentIndex < s.history.length - 1
  · rw [handleRedo_of_lt s h]
    refine ⟨Nat.zero_le _, ?_, hhead⟩
    show s.currentIndex + 1 < s.history.length
    omega
  · rw [handleRedo_at_bound s h]
    exact ⟨Nat.zero_le _, hidx, hhead⟩

/-- Reset re-establishes the single-entry default history. -/
lemma inv_handleReset (s : EditorSession) : Inv (handleReset s) := by
  exact ⟨Nat.zero_le _, Nat.zero_lt_one, rfl⟩

/-- Claim C5: every operation of the session — commit (also the rotate,
crop-change and slider commits that go through it), undo, redo, reset, and
restore-from-autosave — preserves the invariant `0 ≤ index < length(history)`
with `history[0] = INITIAL_STATE`; a restore applies a stored snapshot, so
it preserves the invariant whenever the stored history/index satisfy it,
which the last conjunct shows is the case for every snapshot the autosave
effect itself writes. -/
theorem history_invariant_preserved (s : EditorSession) (hinv : Inv s) :
    (∀ ns, Inv (addToHistory s ns)) ∧
    Inv (handleUndo s).1 ∧
    Inv (handleRedo s).1 ∧
    Inv (handleRotate s) ∧
    (∀ r, Inv (handleCropChange s r)) ∧
    Inv (commitSliderChange s) ∧
    Inv (handleReset s) ∧
    (∀ image, Inv (handleRestoreAutosave none image s).2) ∧
    (∀ p image, p.currentIndex < p.history.length →
        p.history.head? = some INITIAL_STATE →
        Inv (handleRestoreAutosave (some p) image s).2) ∧
    (∀ image now,
        (autosaveSnapshot image s now).currentIndex <
            (autosaveSnapshot image s now).history.length ∧
        (autosaveSnapshot image s now).history.head? = some INITIAL_STATE) := by
  refine ⟨fun ns => inv_addToHistory s hinv ns,
    inv_handleUndo s hinv, inv_handleRedo s hinv,
    inv_addToHistory { s with rotation := (s.rotation + 90) % 360 } hinv
      ⟨s.brightness, s.contrast, (s.rotation + 90) % 360, s.cropRatio⟩,
    fun r => inv_addToHistory { s with cropRatio := r } hinv
      ⟨s.brightness, s.contrast, s.rotation, r⟩,
    inv_addToHistory s hinv ⟨s.brightness, s.contrast, s.rotation, s.cropRatio⟩,
    inv_handleReset s,
    fun image => hinv,
    fun p image hp1 hp2 => ?_,
    fun image now => ⟨hinv.2.1, hinv.2.2⟩⟩
  simp only [handleRestoreAutosave]
  by_cases h : p.imageSignature = getImageSignature image
  · rw [if_pos h]
    exact ⟨Nat.zero_le _, hp1, hp2⟩
  · rw [if_neg h]
    exact hinv

/-- Witness for C5 on a concrete session. -/
theorem history_invariant_preserved_witness :
    Inv (handleReset endSession) ∧ Inv (handleUndo endSession).1 :=
  ⟨(history_invariant_preserved endSession (by decide)).2.2.2.2.2.2.1,
   (history_invariant_preserved endSession (by decide)).2.1⟩

/-- Claim C7: `undo` fails with `NoOpError` exactly when `index = 0` and
otherwise decrements the index and applies `current()` to the live state;
`redo` fails with `NoOpError` exactly when `index = length - 1` and
otherwise increments the index and applies `current()`; in the failing cases
the session (history and index included) is unchanged. -/
theorem undo_redo_boundary (s : EditorSession) (hinv : Inv s) :
    ((handleUndo s).2 = some EditError.noOpError ↔ s.currentIndex = 0) ∧
    (s.currentIndex = 0 → (handleUndo s).1 = s) ∧
    (0 < s.currentIndex →
      (handleUndo s).2 = none ∧
      (handleUndo s).1.currentIndex = s.currentIndex - 1 ∧
      (handleUndo s).1.history = s.history ∧
      liveState (handleUndo s).1 = current (handleUndo s).1) ∧
    ((handleRedo s).2 = some EditError.noOpError ↔
      s.currentIndex = s.history.length - 1) ∧
    (s.currentIndex = s.history.length - 1 → (handleRedo s).1 = s) ∧
    (s.currentIndex < s.history.length - 1 →
      (handleRedo s).2 = none ∧
      (handleRedo s).1.currentIndex = s.currentIndex + 1 ∧
      (handleRedo s).1.history = s.history ∧
      liveState (handleRedo s).1 = current (handleRedo s).1) := by
  obtain ⟨-, hidx, -⟩ := hinv
  refine ⟨?_, ?_, ?_, ?_, ?_, ?_⟩
  · by_cases h : 0 < s.currentIndex
    · rw [handleUndo_of_pos s h]
      simp
      omega
    · rw [handleUndo_at_bound s h]
      simp
      omega
  · intro h0
    rw [handleUndo_at_bound s (by omega)]
  · intro h
    rw [handleUndo_of_pos s h]
    exact ⟨rfl, rfl, rfl, rfl⟩
  · by_cases h : s.currentIndex < s.history.length - 1
    · rw [handleRedo_of_lt s h]
      simp
      omega
    · rw [handleRedo_at_bound s h]
      simp
      omega
  · intro h0
    rw [handleRedo_at_bound s (by omega)]
  · intro h
    rw [handleRedo_of_lt s h]
    exact ⟨rfl, rfl, rfl, rfl⟩

/-- Witness for C7 at the freshly mounted session, whose index sits at both
boundaries of its one-entry history. -/
theorem undo_redo_boundary_witness :
    (handleUndo initialSession).2 = some EditError.noOpError ∧
    (handleUndo initialSession).1 = initialSession :=
  ⟨((undo_redo_boundary initialSession (by decide)).1).mpr rfl,
   ((undo_redo_boundary initialSession (by decide)).2.1) rfl⟩

/-- Claim C10 (implicit): a rotate or crop-ratio change made while the live
brightness or contrast differs from the committed snapshot pushes a history
entry that carries the current live brightness and contrast — the discrete
commit silently also commits the pending continuous-slider state. -/
theorem discrete_commit_carries_live_sliders (s : EditorSession) (hinv : Inv s)
    (r : CropRatio)
    (hdiff : s.brightness ≠ (current s).brightness ∨
      s.contrast ≠ (current s).contrast) :
    (handleRotate s).history =
      s.history.take (s.currentIndex + 1) ++
        [⟨s.brightness, s.contrast, (s.rotation + 90) % 360, s.cropRatio⟩] ∧
    (current (handleRotate s)).brightness = s.brightness ∧
    (current (handleRotate s)).contrast = s.contrast ∧
    (handleCropChange s r).history =
      s.history.take (s.currentIndex + 1) ++
        [⟨s.brightness, s.contrast, s.rotation, r⟩] ∧
    (current (handleCropChange s r)).brightness = s.brightness ∧
    (current (handleCropChange s r)).contrast = s.contrast := by
  obtain ⟨-, hidx, -⟩ := hinv
  have hne : ∀ (rot : Int) (cr : CropRatio),
      ¬ s.history.getD s.currentIndex INITIAL_STATE =
        (⟨s.brightness, s.contrast, rot, cr⟩ : EditorState) := by
    intro rot cr h
    have hc : current s = ⟨s.brightness, s.contrast, rot, cr⟩ := h
    rcases hdiff with hd | hd
    · exact hd (by rw [hc])
    · exact hd (by rw [hc])
  obtain ⟨hh1, -, hc1⟩ := addToHistory_of_ne
    { s with rotation := (s.rotation + 90) % 360 }
    ⟨s.brightness, s.contrast, (s.rotation + 90) % 360, s.cropRatio⟩ hidx (hne _ _)
  obtain ⟨hh2, -, hc2⟩ := addToHistory_of_ne { s with cropRatio := r }
    ⟨s.brightness, s.contrast, s.rotation, r⟩ hidx (hne _ _)
  have h1 : current (handleRotate s) =
      (⟨s.brightness, s.contrast, (s.rotation + 90) % 360, s.cropRatio⟩ : EditorState) :=
    hc1
  have h2 : current (handleCropChange s r) =
      (⟨s.brightness, s.contrast, s.rotation, r⟩ : EditorState) := hc2
  exact ⟨hh1, by rw [h1], by rw [h1], hh2, by rw [h2], by rw [h2]⟩

/-- Witness for C10: with live brightness 150 over a committed 100, both
discrete commits push snapshots carrying brightness 150. -/
theorem discrete_commit_carries_live_sliders_witness :
    (current (handleRotate previewSession)).brightness = 150 ∧
    (current (handleCropChange previewSession CropRatio.r1x1)).brightness = 150 :=
  ⟨(discrete_commit_carries_live_sliders previewSession (by decide) CropRatio.r1x1
      (Or.inl (by decide))).2.1,
   (discrete_commit_carries_live_sliders previewSession (by decide) CropRatio.r1x1
      (Or.inl (by decide))).2.2.2.2.1⟩

/-! ## Apply / decode failure -/

/-- Counterexample to claim C6 as stated: when the source image fails to
decode, `generateFinalImage` reports nothing at all to the caller — the
outcome is `silent`, not a `DecodeError` report, because `img.onload` never
fires and the source installs no `onerror` handler. -/
theorem apply_decode_failure_cex :
    (generateFinalImage none initialSession).2 = ApplyOutcome.silent ∧
    ¬ (generateFinalImage none initialSession).2 =
        ApplyOutcome.errorReported EditError.decodeError :=
  ⟨rfl, by simp [generateFinalImage]⟩

/-- Claim C6 (amended): for every source image that fails to decode, `apply`
produces no output — the save callback is never invoked and no partial
buffer exists — and the session state is unchanged, remaining in Editing;
however, no `DecodeError` is reported to the caller: the failure is
completely silent. -/
theorem apply_decode_failure (s : EditorSession) :
    generateFinalImage none s = (s, ApplyOutcome.silent) := rfl

/-! ## Autosave signature gating -/

/-- A stored snapshot whose signature matches no real image, for use as a
concrete mismatch. -/
def staleSaved : SavedState :=
  { imageSignature := "stale", brightness := 100, contrast := 100, rotation := 0,
    cropRatio := CropRatio.original, history := [INITIAL_STATE], currentIndex := 0,
    timestamp := 0 }

/-- Claim C9: the restore affordance is surfaced iff a stored snapshot
exists whose stored signature equals the signature of the current source
(length plus first and last 30 characters); a snapshot autosaved from the
byte-identical source always matches; any snapshot whose signature differs
never matches, is never applied to the session, and remains in storage. -/
theorem signature_gated_restore (stored : Option SavedState) (image : String)
    (s : EditorSession) (p : SavedState) :
    (checkAutosave stored image = true ↔
      ∃ q, stored = some q ∧ q.imageSignature = getImageSignature image) ∧
    (∀ sess now, checkAutosave (some (autosaveSnapshot image sess now)) image = true) ∧
    (p.imageSignature ≠ getImageSignature image →
      checkAutosave (some p) image = false ∧
      handleRestoreAutosave (some p) image s = (some p, s)) := by
  refine ⟨?_, ?_, fun hne => ⟨?_, ?_⟩⟩
  · cases stored with
    | none => simp [checkAutosave]
    | some q => simp [checkAutosave]
  · intro sess now
    simp [checkAutosave, autosaveSnapshot]
  · simp [checkAutosave, hne]
  · simp [handleRestoreAutosave, if_neg hne]

set_option maxRecDepth 20000 in
/-- Witness for C9: a stored snapshot carrying the signature "stale" is not
offered for the source "img" and is not applied to a fresh session. -/
theorem signature_gated_restore_witness :
    checkAutosave (some staleSaved) "img" = false ∧
    handleRestoreAutosave (some staleSaved) "img" initialSession =
      (some staleSaved, initialSession) :=
  (signature_gated_restore (some staleSaved) "img" initialSession staleSaved).2.2
    (by decide)

end ImageEditor
